import Mathlib

/-!
Verification of the Endee Python SDK client (`endee_client/client.py` and
`endee_client/exceptions.py`) against its natural-language specification.

The client is a thin HTTP wrapper: every public method builds a URL and an
optional JSON body, issues one HTTP call through a `requests` session, and
maps the response (or transport failure) into a result or one of two errors.
We embed that logic shallowly: the HTTP transport is an explicit function
from the built request to a transport result, Python dictionaries are ordered
association lists (insertion order), Python truthiness is made explicit, and
the numeric payloads (which the client never computes with, only forwards)
are carried as integers.
-/

/-- JSON values as the client sees them.  Numeric payloads are carried as
integers: the client never performs arithmetic on them, it only forwards
them verbatim, so the embedding needs no floating point.  Objects are
ordered association lists, matching Python dict insertion order. -/
inductive Json where
  | null
  | bool (b : Bool)
  | num (n : Int)
  | str (s : String)
  | arr (xs : List Json)
  | obj (kvs : List (String × Json))

/-- Keys of a JSON object (empty for non-objects). -/
def Json.keys : Json → List String
  | Json.obj kvs => kvs.map Prod.fst
  | _ => []

/-- Values of a JSON object (empty for non-objects). -/
def Json.objValues : Json → List Json
  | Json.obj kvs => kvs.map Prod.snd
  | _ => []

/-- Whether a JSON object has the given key (Python `k in d` on a dict). -/
def Json.hasKey (j : Json) (k : String) : Bool :=
  match j with
  | Json.obj kvs => kvs.any (fun kv => kv.1 == k)
  | _ => false

/-- Dict lookup, first match.  Parsed JSON dicts have unique keys, so the
match order is immaterial. -/
def objFind : List (String × Json) → String → Option Json
  | [], _ => none
  | kv :: rest, k => if kv.1 = k then some kv.2 else objFind rest k

/-- Python `str.rstrip(c)`: remove every trailing occurrence of `c`. -/
def pyRstrip (s : String) (c : Char) : String :=
  String.mk ((s.data.reverse.dropWhile (fun x => x == c)).reverse)

/-- Does the character list start with the needle? -/
def startsWithChars : List Char → List Char → Bool
  | [], _ => true
  | _ :: _, [] => false
  | n :: ns, h :: hs => n == h && startsWithChars ns hs

/-- Does the haystack contain the needle as a contiguous sublist? -/
def containsChars (needle : List Char) : List Char → Bool
  | [] => startsWithChars needle []
  | h :: hs => startsWithChars needle (h :: hs) || containsChars needle hs

/-- Python `needle in hay` on strings: substring test. -/
def strContains (hay needle : String) : Bool :=
  containsChars needle.data hay.data

/-- Python `'error' in xs` on a list: is the string an element? -/
def jsonListHasStr : List Json → String → Bool
  | [], _ => false
  | Json.str s :: rest, k => s == k || jsonListHasStr rest k
  | _ :: rest, k => jsonListHasStr rest k

/-- Outcome of the Python fragment `if 'error' in error_data: error_msg =
error_data['error']` applied to a parsed JSON value `error_data`.
On a dict, `in` is key membership and indexing retrieves the value.  On a
list, `in` is element membership, and when it succeeds the subsequent string
indexing raises `TypeError`.  On a string, `in` is a substring test, and
string indexing by a string likewise raises.  On `None`, booleans and
numbers, `in` itself raises `TypeError`.  Every raise is swallowed by the
surrounding bare `except:`. -/
inductive ErrFieldResult where
  | found (v : Json)
  | absent
  | raised

/-- Embeds the `'error' in error_data` / `error_data['error']` step of
`EndeeClient._request` (client.py lines 83-87). -/
def errorFieldOf : Json → ErrFieldResult
  | Json.obj kvs =>
      match objFind kvs "error" with
      | some v => ErrFieldResult.found v
      | none => ErrFieldResult.absent
  | Json.arr xs =>
      if jsonListHasStr xs "error" then ErrFieldResult.raised else ErrFieldResult.absent
  | Json.str s =>
      if strContains s "error" then ErrFieldResult.raised else ErrFieldResult.absent
  | _ => ErrFieldResult.raised

/-- The generic error message `f"API request failed with status {code}"`
(client.py line 81). -/
def genericMsg (status : Nat) : String :=
  "API request failed with status " ++ toString status

/-- The error-message computation of `EndeeClient._request` for a response
with status ≥ 400 (client.py lines 81-87).  `text` is `response.text`;
`parsed` is the result of `response.json()`, `Except.error e` meaning the
call raised an exception rendered as `e`.  Any exception inside the `try`
block, whether from `response.json()` or from the membership test, lands in
the bare `except:` branch, which sets the message to `response.text or
error_msg`. -/
def apiErrorMessage (status : Nat) (text : String) (parsed : Except String Json) : Json :=
  match parsed with
  | Except.error _ => if text = "" then Json.str (genericMsg status) else Json.str text
  | Except.ok j =>
      match errorFieldOf j with
      | ErrFieldResult.found v => v
      | ErrFieldResult.absent => Json.str (genericMsg status)
      | ErrFieldResult.raised =>
          if text = "" then Json.str (genericMsg status) else Json.str text

/-- An HTTP response as `requests` exposes it to the client: status code,
raw text, and the result of `response.json()` (`Except.error e` when that
call raises an exception rendered as `e`; in particular an empty body never
parses). -/
structure HttpResponse where
  status_code : Nat
  text : String
  parsed : Except String Json

/-- The request the client hands to the session: method, full URL, optional
JSON body, session headers, timeout. -/
structure HttpRequest where
  method : String
  url : String
  json_data : Option Json
  headers : List (String × String)
  timeout : Nat

/-- What the transport does with one request: either return a response or
raise a `requests.exceptions.RequestException` rendered as `exn desc`. -/
inductive TransportResult where
  | ok (r : HttpResponse)
  | exn (desc : String)

/-- A transport: the (simulated) server plus network, one call per request.
`EndeeClient._request` invokes it exactly once - the source has no retry
loop. -/
def Transport : Type := HttpRequest → TransportResult

/-- Outcome of one `_request` call: a parsed success body, an
`EndeeAPIError` (message, `status_code`, `response_body` - exceptions.py
lines 19-22), or an `EndeeConnectionError` carrying its message string. -/
inductive RequestOutcome where
  | ok (body : Json)
  | api_error (msg : Json) (status_code : Nat) (response_body : String)
  | conn_error (msg : String)

/-- Response interpretation of `EndeeClient._request` (client.py lines
79-101): status ≥ 400 raises `EndeeAPIError` with the computed message, the
status code and the raw body; otherwise a non-empty body is returned parsed
(a parse failure there is a `requests` exception, so the outer `except`
turns it into `EndeeConnectionError`); an empty body yields `{}`.  A
transport-level `RequestException` becomes `EndeeConnectionError` with the
prefix from line 101. -/
def handle_response : TransportResult → RequestOutcome
  | TransportResult.exn e =>
      RequestOutcome.conn_error ("Failed to connect to Endee server: " ++ e)
  | TransportResult.ok r =>
      if 400 ≤ r.status_code then
        RequestOutcome.api_error (apiErrorMessage r.status_code r.text r.parsed)
          r.status_code r.text
      else if r.text = "" then
        RequestOutcome.ok (Json.obj [])
      else
        match r.parsed with
        | Except.ok j => RequestOutcome.ok j
        | Except.error e =>
            RequestOutcome.conn_error ("Failed to connect to Endee server: " ++ e)

/-- The client state: configuration fields set by `__init__` (client.py
lines 26-40), the session's headers, and whether `close` has been called on
the session.  The session keeps no other client-visible state. -/
structure EndeeClient where
  base_url : String
  auth_token : Option String
  timeout : Nat
  session_headers : List (String × String)
  session_closed : Bool

/-- `EndeeClient.__init__`: strips every trailing `/` from the base URL and,
when the token is truthy (present and non-empty), installs it verbatim as
the session's `Authorization` header (client.py lines 32-40). -/
def EndeeClient.make (base_url : String) (auth_token : Option String) (timeout : Nat) :
    EndeeClient :=
  { base_url := pyRstrip base_url '/'
    auth_token := auth_token
    timeout := timeout
    session_headers :=
      match auth_token with
      | some t => if t = "" then [] else [("Authorization", t)]
      | none => []
    session_closed := false }

/-- The request `_request` builds and hands to `self._session.request`
(client.py lines 67-77): URL is base_url concatenated with the endpoint,
headers are the session headers (no public method passes extra headers),
timeout is the configured one. -/
def EndeeClient.build_req (c : EndeeClient) (method endpoint : String)
    (json_data : Option Json) : HttpRequest :=
  { method := method
    url := c.base_url ++ endpoint
    json_data := json_data
    headers := c.session_headers
    timeout := c.timeout }

/-- `EndeeClient._request` (client.py lines 42-101): build the request, call
the transport once, interpret the result.  The method mutates no attribute
of `self`, so the client state is returned unchanged. -/
def EndeeClient.request (c : EndeeClient) (t : Transport) (method endpoint : String)
    (json_data : Option Json) : RequestOutcome × EndeeClient :=
  (handle_response (t (c.build_req method endpoint json_data)), c)

/-- `health_check` (client.py line 112). -/
def EndeeClient.health_check (c : EndeeClient) (t : Transport) :
    RequestOutcome × EndeeClient :=
  c.request t "GET" "/api/v1/health" none

/-- `get_stats` (client.py line 121). -/
def EndeeClient.get_stats (c : EndeeClient) (t : Transport) :
    RequestOutcome × EndeeClient :=
  c.request t "GET" "/api/v1/stats" none

/-- Default value of `create_index`'s `space_type` parameter. -/
def create_index_default_space_type : String := "l2"

/-- Default value of `create_index`'s `ef_construction` parameter. -/
def create_index_default_ef_construction : Int := 200

/-- Default value of `create_index`'s `m` parameter. -/
def create_index_default_m : Int := 16

/-- Default value of `create_index`'s `quant_type` parameter. -/
def create_index_default_quant_type : String := "none"

/-- Default value of `create_index`'s `enable_sparse` parameter. -/
def create_index_default_enable_sparse : Bool := false

/-- The request body dict `create_index` builds (client.py lines 150-158),
keys in insertion order. -/
def create_index_data (index_name : String) (dim : Int) (space_type : String)
    (ef_construction : Int) (m : Int) (quant_type : String) (enable_sparse : Bool) :
    Json :=
  Json.obj
    [("index_name", Json.str index_name), ("dim", Json.num dim),
     ("space_type", Json.str space_type), ("ef_construction", Json.num ef_construction),
     ("m", Json.num m), ("quant_type", Json.str quant_type),
     ("enable_sparse", Json.bool enable_sparse)]

/-- `create_index` (client.py lines 125-159). -/
def EndeeClient.create_index (c : EndeeClient) (t : Transport) (index_name : String)
    (dim : Int) (space_type : String) (ef_construction : Int) (m : Int)
    (quant_type : String) (enable_sparse : Bool) : RequestOutcome × EndeeClient :=
  c.request t "POST" "/api/v1/index/create"
    (some (create_index_data index_name dim space_type ef_construction m quant_type
      enable_sparse))

/-- `list_indexes` (client.py line 168). -/
def EndeeClient.list_indexes (c : EndeeClient) (t : Transport) :
    RequestOutcome × EndeeClient :=
  c.request t "GET" "/api/v1/index/list" none

/-- `get_index_info` (client.py line 180): the index name is interpolated
into the path verbatim by the f-string; nothing percent-escapes it. -/
def EndeeClient.get_index_info (c : EndeeClient) (t : Transport) (index_name : String) :
    RequestOutcome × EndeeClient :=
  c.request t "GET" ("/api/v1/index/" ++ index_name ++ "/info") none

/-- `delete_index` (client.py line 192). -/
def EndeeClient.delete_index (c : EndeeClient) (t : Transport) (index_name : String) :
    RequestOutcome × EndeeClient :=
  c.request t "DELETE" ("/api/v1/index/" ++ index_name ++ "/delete") none

/-- `insert_vectors` (client.py lines 225-229): the body is the caller's
list of record dicts, passed through as a JSON array. -/
def EndeeClient.insert_vectors (c : EndeeClient) (t : Transport) (index_name : String)
    (vectors : List Json) : RequestOutcome × EndeeClient :=
  c.request t "POST" ("/api/v1/index/" ++ index_name ++ "/vector/insert")
    (some (Json.arr vectors))

/-- A sparse vector as the caller supplies it: a dict from token id to
weight, kept in insertion order.  JSON serialization turns the integer keys
into decimal strings. -/
def sparseToJson (sv : List (Int × Int)) : Json :=
  Json.obj (sv.map (fun p => (toString p.1, Json.num p.2)))

/-- The request body dict `search_vectors` builds (client.py lines 254-264):
it starts with `vector` and `k`, then conditionally adds `ef_search` (the
test is `is not None`), `filter` and `sparse_vector` (the tests are Python
truthiness: a supplied empty string or empty dict adds nothing). -/
def search_vectors_data (vector : List Int) (k : Int) (ef_search : Option Int)
    (filter_expr : Option String) (sparse_vector : Option (List (Int × Int))) : Json :=
  Json.obj
    ([("vector", Json.arr (vector.map Json.num)), ("k", Json.num k)]
      ++ (match ef_search with
          | some e => [("ef_search", Json.num e)]
          | none => [])
      ++ (match filter_expr with
          | some f => if f = "" then [] else [("filter", Json.str f)]
          | none => [])
      ++ (match sparse_vector with
          | some sv => if sv = [] then [] else [("sparse_vector", sparseToJson sv)]
          | none => []))

/-- `search_vectors` (client.py lines 231-270). -/
def EndeeClient.search_vectors (c : EndeeClient) (t : Transport) (index_name : String)
    (vector : List Int) (k : Int) (ef_search : Option Int) (filter_expr : Option String)
    (sparse_vector : Option (List (Int × Int))) : RequestOutcome × EndeeClient :=
  c.request t "POST" ("/api/v1/index/" ++ index_name ++ "/search")
    (some (search_vectors_data vector k ef_search filter_expr sparse_vector))

/-- `get_vector` (client.py lines 272-288). -/
def EndeeClient.get_vector (c : EndeeClient) (t : Transport) (index_name : String)
    (vector_ids : List String) : RequestOutcome × EndeeClient :=
  c.request t "POST" ("/api/v1/index/" ++ index_name ++ "/vector/get")
    (some (Json.obj [("ids", Json.arr (vector_ids.map Json.str))]))

/-- `delete_vector` (client.py lines 290-304). -/
def EndeeClient.delete_vector (c : EndeeClient) (t : Transport) (index_name : String)
    (vector_id : String) : RequestOutcome × EndeeClient :=
  c.request t "DELETE"
    ("/api/v1/index/" ++ index_name ++ "/vector/" ++ vector_id ++ "/delete") none

/-- `delete_vectors` (client.py lines 306-322). -/
def EndeeClient.delete_vectors (c : EndeeClient) (t : Transport) (index_name : String)
    (vector_ids : List String) : RequestOutcome × EndeeClient :=
  c.request t "POST" ("/api/v1/index/" ++ index_name ++ "/vectors/delete")
    (some (Json.obj [("ids", Json.arr (vector_ids.map Json.str))]))

/-- `update_filters` (client.py lines 324-343): the update list is an
opaque pass-through. -/
def EndeeClient.update_filters (c : EndeeClient) (t : Transport) (index_name : String)
    (updates : List Json) : RequestOutcome × EndeeClient :=
  c.request t "POST" ("/api/v1/index/" ++ index_name ++ "/filters/update")
    (some (Json.arr updates))

/-- `create_backup` (client.py line 357). -/
def EndeeClient.create_backup (c : EndeeClient) (t : Transport) (index_name : String) :
    RequestOutcome × EndeeClient :=
  c.request t "POST" ("/api/v1/index/" ++ index_name ++ "/backup") none

/-- `list_backups` (client.py line 366). -/
def EndeeClient.list_backups (c : EndeeClient) (t : Transport) :
    RequestOutcome × EndeeClient :=
  c.request t "GET" "/api/v1/backups" none

/-- `restore_backup` (client.py line 378). -/
def EndeeClient.restore_backup (c : EndeeClient) (t : Transport) (backup_name : String) :
    RequestOutcome × EndeeClient :=
  c.request t "POST" ("/api/v1/backups/" ++ backup_name ++ "/restore") none

/-- `delete_backup` (client.py line 390). -/
def EndeeClient.delete_backup (c : EndeeClient) (t : Transport) (backup_name : String) :
    RequestOutcome × EndeeClient :=
  c.request t "DELETE" ("/api/v1/backups/" ++ backup_name) none

/-- `close` (client.py lines 392-394): calls `self._session.close()`, which
releases the session's pooled connections.  It sets no flag on the client,
performs no check, and `requests.Session.close` succeeds when called again;
closing does not stop the session from issuing further requests (a new
connection is simply opened), and `_request` never consults any closed
state. -/
def EndeeClient.close (c : EndeeClient) : EndeeClient :=
  { c with session_closed := true }

/-- Lookup of a header value by name. -/
def headerValue (hs : List (String × String)) (k : String) : Option String :=
  match hs.find? (fun h => h.1 == k) with
  | some h => some h.2
  | none => none

/-- Hex digit characters. -/
def hexDigits : List Char :=
  ['0', '1', '2', '3', '4', '5', '6', '7', '8', '9', 'A', 'B', 'C', 'D', 'E', 'F']

/-- Two uppercase hex digits of a byte value. -/
def hexOfNat (n : Nat) : String :=
  String.mk [hexDigits.getD (n / 16 % 16) '0', hexDigits.getD (n % 16) '0']

/-- Modelled from the spec: RFC 3986 percent-escaping of one character, for
the ASCII range (unreserved characters pass through, anything else becomes
`%HH`).  The source performs no escaping anywhere, so this definition exists
only to compare the spec's demand with what the code builds; the comparison
uses ASCII inputs. -/
def percentEncodeChar (c : Char) : String :=
  if c.isAlphanum || c == '-' || c == '_' || c == '.' || c == '~' then String.singleton c
  else "%" ++ hexOfNat (c.toNat % 256)

/-- Modelled from the spec: percent-escaping of a path parameter, character
by character. -/
def percentEncode (s : String) : String :=
  s.data.foldl (fun acc c => acc ++ percentEncodeChar c) ""

/-- A transport that reports back the URL the client built, by raising a
transport error whose description is that URL. -/
def echoTransport : Transport := fun req => TransportResult.exn req.url

/-- Python truthiness of an `Optional[str]`: `True` exactly for a present,
non-empty string. -/
def optTruthyStr : Option String → Bool
  | some f => if f = "" then false else true
  | none => false

/-- Python truthiness of an `Optional[Dict]` (as an association list):
`True` exactly for a present, non-empty dict. -/
def optTruthySparse : Option (List (Int × Int)) → Bool
  | some sv => if sv = [] then false else true
  | none => false

/-- Claim C6: `create_index("idx", dim=128, space_type="cosine")` with the
remaining parameters at their declared defaults builds the request body with
`dim=128`, `space_type="cosine"`, `ef_construction=200`, `m=16`,
`quant_type="none"`, `enable_sparse=false` (client.py lines 125-158). -/
theorem C6_create_index_defaults :
    create_index_default_ef_construction = 200
    ∧ create_index_default_m = 16
    ∧ create_index_default_quant_type = "none"
    ∧ create_index_default_enable_sparse = false
    ∧ create_index_data "idx" 128 "cosine" create_index_default_ef_construction
        create_index_default_m create_index_default_quant_type
        create_index_default_enable_sparse
      = Json.obj
          [("index_name", Json.str "idx"), ("dim", Json.num 128),
           ("space_type", Json.str "cosine"), ("ef_construction", Json.num 200),
           ("m", Json.num 16), ("quant_type", Json.str "none"),
           ("enable_sparse", Json.bool false)] :=
  ⟨rfl, rfl, rfl, rfl, rfl⟩

/-- Claim C10: a supplied empty filter expression or empty sparse-vector
dict yields the same body as omitting the argument (Python truthiness
decides inclusion of `filter` and `sparse_vector`), while `ef_search` is
included for every supplied value, `0` included (the test is `is not
None`). -/
theorem C10_truthiness (vector : List Int) (k : Int) (e : Int) :
    search_vectors_data vector k none (some "") none
        = search_vectors_data vector k none none none
    ∧ search_vectors_data vector k none none (some [])
        = search_vectors_data vector k none none none
    ∧ search_vectors_data vector k none (some "") (some [])
        = search_vectors_data vector k none none none
    ∧ (search_vectors_data vector k (some e) none none).hasKey "ef_search" = true
    ∧ (search_vectors_data vector k (some 0) none none).hasKey "ef_search" = true :=
  ⟨rfl, rfl, rfl, rfl, rfl⟩

/-- Claim C3, counterexample: the caller supplies a value for the filter
expression (the empty string) and for the sparse vector (the empty dict),
yet the body carries neither a `filter` nor a `sparse_vector` key - the
`if filter_expr:` / `if sparse_vector:` truthiness tests drop them
(client.py lines 261-264), refuting "appear ... exactly when the caller
supplied a value". -/
theorem C3_counterexample :
    (search_vectors_data [1] 10 none (some "") none).hasKey "filter" = false
    ∧ (search_vectors_data [1] 10 none none (some [])).hasKey "sparse_vector" = false :=
  ⟨rfl, rfl⟩

/-- Claim C1, counterexample: `get_index_info` with index name `"a b"` puts
the name into the URL verbatim - the f-string on client.py line 180 does no
percent-escaping - so the URL the session receives contains `"a b"`, not
the percent-escaped `"a%20b"` the claim requires. -/
theorem C1_counterexample :
    percentEncode "a b" = "a%20b"
    ∧ ((EndeeClient.make "http://h" none 30).get_index_info echoTransport "a b").fst
        = RequestOutcome.conn_error
            "Failed to connect to Endee server: http://h/api/v1/index/a b/info"
    ∧ ("http://h" ++ "/api/v1/index/a b/info" : String)
        ≠ "http://h" ++ ("/api/v1/index/" ++ percentEncode "a b" ++ "/info") :=
  ⟨by decide, rfl, by decide⟩

/-- Claim C1 (amended): for every public method the constructed request URL
is the base URL with all trailing slashes removed, concatenated with the
documented path for that method, the path parameters inserted verbatim (no
percent-escaping happens).  Observed end to end through a transport that
echoes back the URL it was handed. -/
theorem C1_url_construction (base index_name vector_id backup_name : String)
    (tok : Option String) (timeout : Nat) (dim k efc m : Int)
    (space_type quant_type : String) (es : Bool) (vectors updates : List Json)
    (ids : List String) (vec : List Int) (efs : Option Int) (fe : Option String)
    (sv : Option (List (Int × Int))) :
    ((EndeeClient.make base tok timeout).health_check echoTransport).fst
        = RequestOutcome.conn_error
            ("Failed to connect to Endee server: " ++ (pyRstrip base '/' ++ "/api/v1/health"))
    ∧ ((EndeeClient.make base tok timeout).get_stats echoTransport).fst
        = RequestOutcome.conn_error
            ("Failed to connect to Endee server: " ++ (pyRstrip base '/' ++ "/api/v1/stats"))
    ∧ ((EndeeClient.make base tok timeout).create_index echoTransport index_name dim
          space_type efc m quant_type es).fst
        = RequestOutcome.conn_error
            ("Failed to connect to Endee server: "
              ++ (pyRstrip base '/' ++ "/api/v1/index/create"))
    ∧ ((EndeeClient.make base tok timeout).list_indexes echoTransport).fst
        = RequestOutcome.conn_error
            ("Failed to connect to Endee server: "
              ++ (pyRstrip base '/' ++ "/api/v1/index/list"))
    ∧ ((EndeeClient.make base tok timeout).get_index_info echoTransport index_name).fst
        = RequestOutcome.conn_error
            ("Failed to connect to Endee server: "
              ++ (pyRstrip base '/' ++ ("/api/v1/index/" ++ index_name ++ "/info")))
    ∧ ((EndeeClient.make base tok timeout).delete_index echoTransport index_name).fst
        = RequestOutcome.conn_error
            ("Failed to connect to Endee server: "
              ++ (pyRstrip base '/' ++ ("/api/v1/index/" ++ index_name ++ "/delete")))
    ∧ ((EndeeClient.make base tok timeout).insert_vectors echoTransport index_name
          vectors).fst
        = RequestOutcome.conn_error
            ("Failed to connect to Endee server: "
              ++ (pyRstrip base '/' ++ ("/api/v1/index/" ++ index_name ++ "/vector/insert")))
    ∧ ((EndeeClient.make base tok timeout).search_vectors echoTransport index_name vec k
          efs fe sv).fst
        = RequestOutcome.conn_error
            ("Failed to connect to Endee server: "
              ++ (pyRstrip base '/' ++ ("/api/v1/index/" ++ index_name ++ "/search")))
    ∧ ((EndeeClient.make base tok timeout).get_vector echoTransport index_name ids).fst
        = RequestOutcome.conn_error
            ("Failed to connect to Endee server: "
              ++ (pyRstrip base '/' ++ ("/api/v1/index/" ++ index_name ++ "/vector/get")))
    ∧ ((EndeeClient.make base tok timeout).delete_vector echoTransport index_name
          vector_id).fst
        = RequestOutcome.conn_error
            ("Failed to connect to Endee server: "
              ++ (pyRstrip base '/'
                ++ ("/api/v1/index/" ++ index_name ++ "/vector/" ++ vector_id ++ "/delete")))
    ∧ ((EndeeClient.make base tok timeout).delete_vectors echoTransport index_name
          ids).fst
        = RequestOutcome.conn_error
            ("Failed to connect to Endee server: "
              ++ (pyRstrip base '/' ++ ("/api/v1/index/" ++ index_name ++ "/vectors/delete")))
    ∧ ((EndeeClient.make base tok timeout).update_filters echoTransport index_name
          updates).fst
        = RequestOutcome.conn_error
            ("Failed to connect to Endee server: "
              ++ (pyRstrip base '/' ++ ("/api/v1/index/" ++ index_name ++ "/filters/update")))
    ∧ ((EndeeClient.make base tok timeout).create_backup echoTransport index_name).fst
        = RequestOutcome.conn_error
            ("Failed to connect to Endee server: "
              ++ (pyRstrip base '/' ++ ("/api/v1/index/" ++ index_name ++ "/backup")))
    ∧ ((EndeeClient.make base tok timeout).list_backups echoTransport).fst
        = RequestOutcome.conn_error
            ("Failed to connect to Endee server: " ++ (pyRstrip base '/' ++ "/api/v1/backups"))
    ∧ ((EndeeClient.make base tok timeout).restore_backup echoTransport backup_name).fst
        = RequestOutcome.conn_error
            ("Failed to connect to Endee server: "
              ++ (pyRstrip base '/' ++ ("/api/v1/backups/" ++ backup_name ++ "/restore")))
    ∧ ((EndeeClient.make base tok timeout).delete_backup echoTransport backup_name).fst
        = RequestOutcome.conn_error
            ("Failed to connect to Endee server: "
              ++ (pyRstrip base '/' ++ ("/api/v1/backups/" ++ backup_name))) :=
  ⟨rfl, rfl, rfl, rfl, rfl, rfl, rfl, rfl, rfl, rfl, rfl, rfl, rfl, rfl, rfl, rfl⟩

/-- Claim C4: a transport-level `RequestException` makes every public
method fail with `EndeeConnectionError` carrying the underlying failure
description - never with `EndeeAPIError`; the transport is consulted once
per call, with no retry (client.py lines 100-101). -/
theorem C4_connection_error (desc : String) (c : EndeeClient)
    (index_name vector_id backup_name : String) (dim k efc m : Int)
    (space_type quant_type : String) (es : Bool) (vectors updates : List Json)
    (ids : List String) (vec : List Int) (efs : Option Int) (fe : Option String)
    (sv : Option (List (Int × Int))) :
    (c.health_check (fun _ => TransportResult.exn desc)).fst
        = RequestOutcome.conn_error ("Failed to connect to Endee server: " ++ desc)
    ∧ (c.get_stats (fun _ => TransportResult.exn desc)).fst
        = RequestOutcome.conn_error ("Failed to connect to Endee server: " ++ desc)
    ∧ (c.create_index (fun _ => TransportResult.exn desc) index_name dim space_type efc m
          quant_type es).fst
        = RequestOutcome.conn_error ("Failed to connect to Endee server: " ++ desc)
    ∧ (c.list_indexes (fun _ => TransportResult.exn desc)).fst
        = RequestOutcome.conn_error ("Failed to connect to Endee server: " ++ desc)
    ∧ (c.get_index_info (fun _ => TransportResult.exn desc) index_name).fst
        = RequestOutcome.conn_error ("Failed to connect to Endee server: " ++ desc)
    ∧ (c.delete_index (fun _ => TransportResult.exn desc) index_name).fst
        = RequestOutcome.conn_error ("Failed to connect to Endee server: " ++ desc)
    ∧ (c.insert_vectors (fun _ => TransportResult.exn desc) index_name vectors).fst
        = RequestOutcome.conn_error ("Failed to connect to Endee server: " ++ desc)
    ∧ (c.search_vectors (fun _ => TransportResult.exn desc) index_name vec k efs fe
          sv).fst
        = RequestOutcome.conn_error ("Failed to connect to Endee server: " ++ desc)
    ∧ (c.get_vector (fun _ => TransportResult.exn desc) index_name ids).fst
        = RequestOutcome.conn_error ("Failed to connect to Endee server: " ++ desc)
    ∧ (c.delete_vector (fun _ => TransportResult.exn desc) index_name vector_id).fst
        = RequestOutcome.conn_error ("Failed to connect to Endee server: " ++ desc)
    ∧ (c.delete_vectors (fun _ => TransportResult.exn desc) index_name ids).fst
        = RequestOutcome.conn_error ("Failed to connect to Endee server: " ++ desc)
    ∧ (c.update_filters (fun _ => TransportResult.exn desc) index_name updates).fst
        = RequestOutcome.conn_error ("Failed to connect to Endee server: " ++ desc)
    ∧ (c.create_backup (fun _ => TransportResult.exn desc) index_name).fst
        = RequestOutcome.conn_error ("Failed to connect to Endee server: " ++ desc)
    ∧ (c.list_backups (fun _ => TransportResult.exn desc)).fst
        = RequestOutcome.conn_error ("Failed to connect to Endee server: " ++ desc)
    ∧ (c.restore_backup (fun _ => TransportResult.exn desc) backup_name).fst
        = RequestOutcome.conn_error ("Failed to connect to Endee server: " ++ desc)
    ∧ (c.delete_backup (fun _ => TransportResult.exn desc) backup_name).fst
        = RequestOutcome.conn_error ("Failed to connect to Endee server: " ++ desc) :=
  ⟨rfl, rfl, rfl, rfl, rfl, rfl, rfl, rfl, rfl, rfl, rfl, rfl, rfl, rfl, rfl, rfl⟩

/-- Claim C2, counterexample: a 500 response whose body parses as a JSON
object without an `"error"` field keeps the generic message `"API request
failed with status 500"` - the bare `except:` branch that would fall back
to the raw text is never reached when parsing succeeds (client.py lines
81-87) - refuting "when parsing fails or the field is absent, the message
is the raw response text". -/
theorem C2_counterexample :
    handle_response
        (TransportResult.ok
          ⟨500, "\x7b\"status\": \"bad\"\x7d",
            Except.ok (Json.obj [("status", Json.str "bad")])⟩)
      = RequestOutcome.api_error (Json.str "API request failed with status 500") 500
          "\x7b\"status\": \"bad\"\x7d"
    ∧ ("API request failed with status 500" : String) ≠ "\x7b\"status\": \"bad\"\x7d" :=
  ⟨rfl, by decide⟩

/-- Claim C2 (amended): for a response with status ≥ 400 the call fails
with an `EndeeAPIError` carrying the status code, the raw body, and a
message computed as follows: the value of the body's JSON `"error"` field
when the body parses as an object with that field; the generic `"API
request failed with status N"` when the body parses as an object without
that field, or when the body is empty; and the raw response text when
parsing raises and the body is non-empty.  In particular a 404 with body
`{"error": "index not found"}` makes `get_index_info` fail with status
code 404 and message `"index not found"`. -/
theorem C2_error_message (status : Nat) (text : String) (kvs : List (String × Json))
    (v : Json) (e : String) (r : HttpResponse) :
    (objFind kvs "error" = some v →
      apiErrorMessage status text (Except.ok (Json.obj kvs)) = v)
    ∧ (objFind kvs "error" = none →
      apiErrorMessage status text (Except.ok (Json.obj kvs)) = Json.str (genericMsg status))
    ∧ (text ≠ "" → apiErrorMessage status text (Except.error e) = Json.str text)
    ∧ apiErrorMessage status "" (Except.error e) = Json.str (genericMsg status)
    ∧ (400 ≤ r.status_code →
      handle_response (TransportResult.ok r)
        = RequestOutcome.api_error (apiErrorMessage r.status_code r.text r.parsed)
            r.status_code r.text)
    ∧ ∀ c : EndeeClient, ∀ nm : String,
        (c.get_index_info
            (fun _ => TransportResult.ok
              ⟨404, "\x7b\"error\": \"index not found\"\x7d",
                Except.ok (Json.obj [("error", Json.str "index not found")])⟩) nm).fst
          = RequestOutcome.api_error (Json.str "index not found") 404
              "\x7b\"error\": \"index not found\"\x7d" := by
  refine ⟨?_, ?_, ?_, ?_, ?_, ?_⟩
  · intro h
    simp [apiErrorMessage, errorFieldOf, h]
  · intro h
    simp [apiErrorMessage, errorFieldOf, h]
  · intro h
    simp [apiErrorMessage, h]
  · simp [apiErrorMessage]
  · intro h
    simp [handle_response, h]
  · intro c nm
    rfl

/-- Witness for C2: the 404 / `{"error": "index not found"}` instance of
the first conjunct. -/
theorem C2_error_message_witness :
    apiErrorMessage 404 "\x7b\"error\": \"index not found\"\x7d"
        (Except.ok (Json.obj [("error", Json.str "index not found")]))
      = Json.str "index not found" :=
  (C2_error_message 404 "\x7b\"error\": \"index not found\"\x7d"
      [("error", Json.str "index not found")] (Json.str "index not found") "x"
      ⟨404, "", Except.error "x"⟩).1 rfl

/-- Claim C5: a response with a success status (< 400) and empty body
yields the empty object `{}` rather than an error, and a non-empty success
body is returned as its parsed JSON value (client.py lines 95-98); shown
also end to end for every public method against a server answering 200
with an empty body (whose `response.json()` raises, unreached). -/
theorem C5_success_body (r : HttpResponse) (j : Json) (c : EndeeClient)
    (index_name vector_id backup_name : String) (dim k efc m : Int)
    (space_type quant_type : String) (es : Bool) (vectors updates : List Json)
    (ids : List String) (vec : List Int) (efs : Option Int) (fe : Option String)
    (sv : Option (List (Int × Int))) :
    (r.status_code < 400 → r.text = "" →
      handle_response (TransportResult.ok r) = RequestOutcome.ok (Json.obj []))
    ∧ (r.status_code < 400 → r.text ≠ "" → r.parsed = Except.ok j →
      handle_response (TransportResult.ok r) = RequestOutcome.ok j)
    ∧ (c.health_check
          (fun _ => TransportResult.ok ⟨200, "", Except.error "Expecting value"⟩)).fst
        = RequestOutcome.ok (Json.obj [])
    ∧ (c.get_stats
          (fun _ => TransportResult.ok ⟨200, "", Except.error "Expecting value"⟩)).fst
        = RequestOutcome.ok (Json.obj [])
    ∧ (c.create_index
          (fun _ => TransportResult.ok ⟨200, "", Except.error "Expecting value"⟩)
          index_name dim space_type efc m quant_type es).fst
        = RequestOutcome.ok (Json.obj [])
    ∧ (c.list_indexes
          (fun _ => TransportResult.ok ⟨200, "", Except.error "Expecting value"⟩)).fst
        = RequestOutcome.ok (Json.obj [])
    ∧ (c.get_index_info
          (fun _ => TransportResult.ok ⟨200, "", Except.error "Expecting value"⟩)
          index_name).fst
        = RequestOutcome.ok (Json.obj [])
    ∧ (c.delete_index
          (fun _ => TransportResult.ok ⟨200, "", Except.error "Expecting value"⟩)
          index_name).fst
        = RequestOutcome.ok (Json.obj [])
    ∧ (c.insert_vectors
          (fun _ => TransportResult.ok ⟨200, "", Except.error "Expecting value"⟩)
          index_name vectors).fst
        = RequestOutcome.ok (Json.obj [])
    ∧ (c.search_vectors
          (fun _ => TransportResult.ok ⟨200, "", Except.error "Expecting value"⟩)
          index_name vec k efs fe sv).fst
        = RequestOutcome.ok (Json.obj [])
    ∧ (c.get_vector
          (fun _ => TransportResult.ok ⟨200, "", Except.error "Expecting value"⟩)
          index_name ids).fst
        = RequestOutcome.ok (Json.obj [])
    ∧ (c.delete_vector
          (fun _ => TransportResult.ok ⟨200, "", Except.error "Expecting value"⟩)
          index_name vector_id).fst
        = RequestOutcome.ok (Json.obj [])
    ∧ (c.delete_vectors
          (fun _ => TransportResult.ok ⟨200, "", Except.error "Expecting value"⟩)
          index_name ids).fst
        = RequestOutcome.ok (Json.obj [])
    ∧ (c.update_filters
          (fun _ => TransportResult.ok ⟨200, "", Except.error "Expecting value"⟩)
          index_name updates).fst
        = RequestOutcome.ok (Json.obj [])
    ∧ (c.create_backup
          (fun _ => TransportResult.ok ⟨200, "", Except.error "Expecting value"⟩)
          index_name).fst
        = RequestOutcome.ok (Json.obj [])
    ∧ (c.list_backups
          (fun _ => TransportResult.ok ⟨200, "", Except.error "Expecting value"⟩)).fst
        = RequestOutcome.ok (Json.obj [])
    ∧ (c.restore_backup
          (fun _ => TransportResult.ok ⟨200, "", Except.error "Expecting value"⟩)
          backup_name).fst
        = RequestOutcome.ok (Json.obj [])
    ∧ (c.delete_backup
          (fun _ => TransportResult.ok ⟨200, "", Except.error "Expecting value"⟩)
          backup_name).fst
        = RequestOutcome.ok (Json.obj []) := by
  refine ⟨?_, ?_, rfl, rfl, rfl, rfl, rfl, rfl, rfl, rfl, rfl, rfl, rfl, rfl, rfl, rfl,
    rfl, rfl⟩
  · intro h1 h2
    simp [handle_response, Nat.not_le.mpr h1, h2]
  · intro h1 h2 h3
    simp [handle_response, Nat.not_le.mpr h1, h2, h3]

/-- Witness for C5: the empty-body conjunct at a concrete 200 response. -/
theorem C5_success_body_witness :
    handle_response (TransportResult.ok ⟨200, "", Except.error "Expecting value"⟩)
      = RequestOutcome.ok (Json.obj []) :=
  (C5_success_body ⟨200, "", Except.error "Expecting value"⟩ Json.null
      (EndeeClient.make "http://h" none 30) "i" "v" "b" 1 1 1 1 "l2" "none" false [] []
      [] [] none none none).1 (by decide) rfl

/-- Claim C3 (amended): the `search_vectors` body never contains a
null-valued key; with no optional argument supplied it is exactly
`{"vector": ..., "k": ...}`; `ef_search` appears exactly when a value was
supplied (`is not None`), while `filter` and `sparse_vector` appear exactly
when the supplied value is truthy, i.e. present and non-empty (client.py
lines 254-264). -/
theorem C3_optional_fields (vector : List Int) (k : Int) (ef : Option Int)
    (fe : Option String) (sv : Option (List (Int × Int))) :
    search_vectors_data vector k none none none
        = Json.obj [("vector", Json.arr (vector.map Json.num)), ("k", Json.num k)]
    ∧ (search_vectors_data vector k ef fe sv).hasKey "ef_search" = ef.isSome
    ∧ (search_vectors_data vector k ef fe sv).hasKey "filter" = optTruthyStr fe
    ∧ (search_vectors_data vector k ef fe sv).hasKey "sparse_vector" = optTruthySparse sv
    ∧ Json.null ∉ (search_vectors_data vector k ef fe sv).objValues := by
  refine ⟨rfl, ?_, ?_, ?_, ?_⟩ <;>
    rcases ef with _ | e <;> rcases fe with _ | f <;> rcases sv with _ | s <;>
      simp [search_vectors_data, Json.hasKey, Json.objValues, optTruthyStr,
        optTruthySparse, sparseToJson] <;>
      (repeat' split) <;>
      simp_all [Json.hasKey, Json.objValues]

/-- Claim C7, counterexample: a client constructed with the supplied
auth token `""` attaches no `Authorization` header at all - the
`if self.auth_token:` truthiness test on client.py line 37 skips an empty
token - refuting "every client constructed with a supplied auth token ...
carries that token". -/
theorem C7_counterexample :
    ((EndeeClient.make "http://h" (some "") 30).build_req "GET" "/api/v1/health"
        none).headers = []
    ∧ headerValue
        ((EndeeClient.make "http://h" (some "") 30).build_req "GET" "/api/v1/health"
          none).headers "Authorization" = none :=
  ⟨rfl, rfl⟩

/-- Claim C7 (amended): a client constructed with a supplied non-empty auth
token sends it verbatim, with no prefix, as the `Authorization` header of
every request any public method issues (the header is installed once on the
session, client.py lines 37-40, and every request carries the session
headers); with no token (or an empty one) no authorization header is
attached.  The last conjunct observes the header end to end through a
transport that echoes the `Authorization` value it received. -/
theorem C7_auth_header (base tok : String) (timeout : Nat) (method endpoint : String)
    (jd : Option Json) :
    (tok ≠ "" →
      ((EndeeClient.make base (some tok) timeout).build_req method endpoint jd).headers
        = [("Authorization", tok)])
    ∧ ((EndeeClient.make base none timeout).build_req method endpoint jd).headers = []
    ∧ (tok ≠ "" →
      ((EndeeClient.make base (some tok) timeout).health_check
          (fun req => TransportResult.exn
            ((headerValue req.headers "Authorization").getD "absent"))).fst
        = RequestOutcome.conn_error ("Failed to connect to Endee server: " ++ tok)) := by
  refine ⟨?_, rfl, ?_⟩
  · intro h
    simp [EndeeClient.make, EndeeClient.build_req, h]
  · intro h
    simp [EndeeClient.make, EndeeClient.build_req, EndeeClient.health_check,
      EndeeClient.request, handle_response, headerValue, List.find?, h]

/-- Witness for C7: the concrete token `"secret"` is carried verbatim. -/
theorem C7_auth_header_witness :
    ((EndeeClient.make "http://h" (some "secret") 30).build_req "GET" "/api/v1/health"
        none).headers = [("Authorization", "secret")] :=
  (C7_auth_header "http://h" "secret" 30 "GET" "/api/v1/health" none).1 (by decide)

/-- Claim C8, counterexample: after `close` the client still issues
requests - `close` only calls `requests.Session.close()`, which releases
pooled connections but leaves the session usable, and `_request` checks no
closed state (client.py lines 392-394, 42-101) - so a `get_index_info`
after `close` succeeds against a live server instead of failing, refuting
"after close has been called, no request may be issued". -/
theorem C8_counterexample :
    (((EndeeClient.make "http://h" none 30).close).get_index_info
        (fun _ => TransportResult.ok
          ⟨200, "\x7b\"dim\": 4\x7d", Except.ok (Json.obj [("dim", Json.num 4)])⟩)
        "idx").fst
      = RequestOutcome.ok (Json.obj [("dim", Json.num 4)]) :=
  rfl

/-- Claim C8 (amended): calling `close` twice is idempotent and raises
nothing (it is a total operation on the client state, and
`requests.Session.close` tolerates repetition), but the client keeps no
closed flag and performs no closed-state check: a public method call after
`close` behaves exactly as the same call before `close` - the request is
still issued to the server. -/
theorem C8_close_semantics (c : EndeeClient) (t : Transport) (nm : String) :
    (c.close).close = c.close
    ∧ ((c.close).get_index_info t nm).fst = (c.get_index_info t nm).fst
    ∧ ((c.close).health_check t).fst = (c.health_check t).fst :=
  ⟨rfl, rfl, rfl⟩

/-- Claim C9: no public method mutates the client - each returns the state
it was given, so `base_url`, `auth_token` and `timeout` are unchanged by
any call, and a call after another call behaves exactly like the same call
made first (`_request` assigns no attribute of `self`, client.py lines
42-101). -/
theorem C9_stateless (c : EndeeClient) (t t2 : Transport)
    (index_name vector_id backup_name : String) (dim k efc m : Int)
    (space_type quant_type : String) (es : Bool) (vectors updates : List Json)
    (ids : List String) (vec : List Int) (efs : Option Int) (fe : Option String)
    (sv : Option (List (Int × Int))) :
    (c.health_check t).snd = c
    ∧ (c.get_stats t).snd = c
    ∧ (c.create_index t index_name dim space_type efc m quant_type es).snd = c
    ∧ (c.list_indexes t).snd = c
    ∧ (c.get_index_info t index_name).snd = c
    ∧ (c.delete_index t index_name).snd = c
    ∧ (c.insert_vectors t index_name vectors).snd = c
    ∧ (c.search_vectors t index_name vec k efs fe sv).snd = c
    ∧ (c.get_vector t index_name ids).snd = c
    ∧ (c.delete_vector t index_name vector_id).snd = c
    ∧ (c.delete_vectors t index_name ids).snd = c
    ∧ (c.update_filters t index_name updates).snd = c
    ∧ (c.create_backup t index_name).snd = c
    ∧ (c.list_backups t).snd = c
    ∧ (c.restore_backup t backup_name).snd = c
    ∧ (c.delete_backup t backup_name).snd = c
    ∧ ((c.create_index t index_name dim space_type efc m quant_type es).snd).search_vectors
          t2 index_name vec k efs fe sv
        = c.search_vectors t2 index_name vec k efs fe sv :=
  ⟨rfl, rfl, rfl, rfl, rfl, rfl, rfl, rfl, rfl, rfl, rfl, rfl, rfl, rfl, rfl, rfl, rfl⟩
